import Mathlib

/-!
Verification of the hybrid retrieval-and-answer pipeline implemented in
`backend/app/services/rag.py`.  Python strings are modelled as lists of
characters (`PyStr`), similarity scores as rationals, and the two external
collaborators (the completion service and the per-collection vector query
engines) as oracle functions packaged in a `Services` record.  A query-engine
oracle returning `none` models the call raising an exception; `Except.error`
models a completion-service failure.
-/

/-- Python `str` modelled as a list of characters. -/
abbrev PyStr := List Char

/-- Conversion from a Lean string literal to the `PyStr` model. -/
def pyS (s : String) : PyStr := s.data

/-- Python truthiness of a possibly-absent string (`None` and `""` are falsy). -/
def optTruthy : Option PyStr → Bool
  | none => false
  | some s => !s.isEmpty

/-- Characters stripped by Python `str.strip()` (the ASCII whitespace that can
occur in this pipeline's strings). -/
def pyIsSpace (c : Char) : Bool :=
  c == ' ' || c == '\t' || c == '\n' || c == '\r' || c == Char.ofNat 11 || c == Char.ofNat 12

/-- Python `str.strip()`: drop leading and trailing whitespace. -/
def pyStrip (s : PyStr) : PyStr :=
  ((s.dropWhile pyIsSpace).reverse.dropWhile pyIsSpace).reverse

/-- Python `str.lower()` (ASCII). -/
def lowerChars (s : PyStr) : PyStr := s.map Char.toLower

/-- Python `str.upper()` (ASCII). -/
def upperChars (s : PyStr) : PyStr := s.map Char.toUpper

/-- Python `s.startswith(pat)`. -/
def startsWithChars : PyStr → PyStr → Bool
  | _, [] => true
  | [], _ :: _ => false
  | c :: cs, p :: ps => c == p && startsWithChars cs ps

/-- Python `pat in s` (substring test; all patterns used here are non-empty). -/
def containsSub : PyStr → PyStr → Bool
  | [], pat => startsWithChars [] pat
  | c :: cs, pat => startsWithChars (c :: cs) pat || containsSub cs pat

/-- Python `s.split(sep)` for a single-character separator. -/
def splitChar (sep : Char) : PyStr → List PyStr
  | [] => [[]]
  | c :: cs =>
    let r := splitChar sep cs
    if c == sep then [] :: r
    else
      match r with
      | h :: t => (c :: h) :: t
      | [] => [[c]]

/-- Python `s.split(sep, 1)` for a single-character separator: the text before
the first occurrence and the text after it, or `none` when `sep` is absent. -/
def splitFirstChar (sep : Char) : PyStr → Option (PyStr × PyStr)
  | [] => none
  | c :: cs =>
    if c == sep then some ([], cs)
    else
      match splitFirstChar sep cs with
      | some (a, b) => some (c :: a, b)
      | none => none

/-- Split at the first occurrence of a (non-empty) substring pattern. -/
def splitFirstSub (pat : PyStr) : PyStr → Option (PyStr × PyStr)
  | [] => if pat.isEmpty then some ([], []) else none
  | c :: cs =>
    if startsWithChars (c :: cs) pat then some ([], (c :: cs).drop pat.length)
    else
      match splitFirstSub pat cs with
      | some (a, b) => some (c :: a, b)
      | none => none

/-- Fuel-driven worker for `replaceAll`; with fuel at least the length of the
subject string it replaces every occurrence of `pat`, left to right, exactly as
Python `str.replace` does for a non-empty pattern. -/
def replaceFuel (pat rep : PyStr) : Nat → PyStr → PyStr
  | 0, s => s
  | _ + 1, [] => []
  | n + 1, c :: cs =>
    if !pat.isEmpty && startsWithChars (c :: cs) pat then
      rep ++ replaceFuel pat rep n ((c :: cs).drop pat.length)
    else c :: replaceFuel pat rep n cs

/-- Python `s.replace(pat, rep)` for a non-empty pattern. -/
def replaceAll (s pat rep : PyStr) : PyStr := replaceFuel pat rep s.length s

/-- Deduplication preserving first-seen order, worker carrying already-seen
values (Python `list(dict.fromkeys(xs))`). -/
def dedupFrom (seen : List PyStr) : List PyStr → List PyStr
  | [] => []
  | x :: xs => if x ∈ seen then dedupFrom seen xs else x :: dedupFrom (x :: seen) xs

/-- Python `list(dict.fromkeys(xs))`: remove duplicates keeping the first
occurrence of each value. -/
def dedupKeepFirst (l : List PyStr) : List PyStr := dedupFrom [] l

/-- Kernel-computable product of two rationals (equal to `a * b`). -/
def qmul (a b : ℚ) : ℚ := Rat.divInt (a.num * b.num) (a.den * b.den)

/-- Kernel-computable sum of two rationals (equal to `a + b`). -/
def qadd (a b : ℚ) : ℚ := Rat.divInt (a.num * b.den + b.num * a.den) (a.den * b.den)

/-- Python `max` of a non-empty list (`0` for the empty list, which the code
never takes). -/
def listMax : List ℚ → ℚ
  | [] => 0
  | x :: xs => xs.foldl max x

/-- A node as returned by one vector-collection query: the payload text, the
similarity score (`none` models a null score), and the source URL from the
node metadata (empty when absent). -/
structure RNode where
  text : PyStr
  score : Option ℚ
  source : PyStr
deriving DecidableEq

/-- A pooled retrieval result (dict built in `get_rag_context_weighted`). -/
structure PNode where
  text : PyStr
  score : ℚ
  source : PyStr
  collection : PyStr
deriving DecidableEq

/-- A conversation message: `{"role": ..., "content": ...}`. -/
structure Msg where
  role : PyStr
  content : PyStr
deriving DecidableEq

/-- The external collaborators, as oracle functions.  `classify` is the
completion call made by the question classifier (abstracted at the question
level; the prompt template is fixed), `nhsQuery`/`cancerQuery` are the two
collection query engines (`none` models the query raising), and `complete` is
the generation call on the final message list. -/
structure Services where
  classify : PyStr → Except Unit PyStr
  nhsQuery : PyStr → Option (List RNode)
  cancerQuery : PyStr → Option (List RNode)
  complete : List Msg → Except Unit PyStr

/-- A metadata value (the Python dicts in this pipeline hold booleans,
floats, strings and ints). -/
inductive MVal where
  | b : Bool → MVal
  | q : ℚ → MVal
  | s : PyStr → MVal
  | n : Nat → MVal
deriving DecidableEq

/-- Python truthiness of a metadata value. -/
def MVal.truthy : MVal → Bool
  | .b v => v
  | .q x => x ≠ 0
  | .s t => !t.isEmpty
  | .n k => k ≠ 0

/-- Python `metadata.get(key, False)` used in a boolean position. -/
def metaTruthy (m : List (String × MVal)) (k : String) : Bool :=
  ((m.lookup k).getD (.b false)).truthy

/-- Minimum blended similarity to use retrieved knowledge
(`SIM_THRESHOLD = 0.30` in the source). -/
def SIM_THRESHOLD : ℚ := Rat.divInt 3 10

/-- Pool the nodes of one collection query: a failed query (`none`) contributes
nothing, and only nodes with a truthy (non-null, non-zero) score are kept, as
dicts `{text, score, source, collection}`. -/
def poolFrom (collection : PyStr) (res : Option (List RNode)) : List PNode :=
  match res with
  | none => []
  | some l =>
    l.filterMap fun n =>
      match n.score with
      | some s => if s = 0 then none else some ⟨n.text, s, n.source, collection⟩
      | none => none

/-- All pooled results of the primary query, NHS collection first. -/
def pool_of (svc : Services) (q : PyStr) : List PNode :=
  poolFrom (pyS "nhs") (svc.nhsQuery q) ++ poolFrom (pyS "cancer_research") (svc.cancerQuery q)

/-- `best_score`: running maximum of the pooled scores, starting at `0.0`. -/
def best_score_of (svc : Services) (q : PyStr) : ℚ :=
  (pool_of svc q).foldl (fun b r => max b r.score) 0

/-- The descending-score order used by `all_results.sort(..., reverse=True)`. -/
def byScoreDesc (a b : PNode) : Prop := b.score ≤ a.score

instance : DecidableRel byScoreDesc := fun a b => inferInstanceAs (Decidable (b.score ≤ a.score))

/-- Pooled results sorted by score descending (stable, like Python `sort`). -/
def sortPNodes (l : List PNode) : List PNode := List.insertionSort byScoreDesc l

/-- `top_results`: the top 6 pooled results by score. -/
def top_results_of (svc : Services) (q : PyStr) : List PNode :=
  (sortPNodes (pool_of svc q)).take 6

/-- The last `n` entries of a list (Python `l[-n:]`). -/
def lastN (n : Nat) (l : List Msg) : List Msg := l.drop (l.length - n)

/-- The contextual query string built from the last two conversation messages
and the current query. -/
def ctx_query_of (history : List Msg) (q : PyStr) : PyStr :=
  pyS "Context: " ++
    List.intercalate (pyS " | ") ((lastN 2 history).map fun m => m.role ++ pyS ": " ++ m.content) ++
    pyS " | Current: " ++ q

/-- Scores contributed by one collection to the contextual pass
(`node.score or 0.0`; a failed query contributes nothing). -/
def ctxScoresFrom (res : Option (List RNode)) : List ℚ :=
  match res with
  | none => []
  | some l => l.map fun n => n.score.getD 0

/-- All contextual-pass scores (empty when the history is empty, since no
contextual query is issued). -/
def ctx_scores_of (svc : Services) (q : PyStr) (history : List Msg) : List ℚ :=
  if history.isEmpty then []
  else
    ctxScoresFrom (svc.nhsQuery (ctx_query_of history q)) ++
      ctxScoresFrom (svc.cancerQuery (ctx_query_of history q))

/-- `contextual_score`: max of the contextual-pass scores, `0.0` when none. -/
def contextual_score_of (svc : Services) (q : PyStr) (history : List Msg) : ℚ :=
  let cs := ctx_scores_of svc q history
  if cs.isEmpty then 0 else listMax cs

/-- `final_score = primary_weight * best_score + context_weight * contextual_score`. -/
def final_score_of (svc : Services) (q : PyStr) (history : List Msg) (pw cw : ℚ) : ℚ :=
  qadd (qmul pw (best_score_of svc q)) (qmul cw (contextual_score_of svc q history))

/-- Domain allow-list test: the URL mentions `nhs.uk` or `cancerresearchuk.org`. -/
def allow_listed (u : PyStr) : Bool :=
  containsSub u (pyS "nhs.uk") || containsSub u (pyS "cancerresearchuk.org")

/-- The source kept in `links` for one top result: non-empty and allow-listed. -/
def link_of (r : PNode) : Option PyStr :=
  if !r.source.isEmpty && allow_listed r.source then some r.source else none

/-- `links`: sources extracted from the top results. -/
def links_of (svc : Services) (q : PyStr) : List PyStr :=
  (top_results_of svc q).filterMap link_of

/-- The texts of the top results whose individual score is at least
`SIM_THRESHOLD * 0.8`. -/
def context_parts_of (svc : Services) (q : PyStr) : List PyStr :=
  ((top_results_of svc q).filter fun r => qmul SIM_THRESHOLD (Rat.divInt 8 10) ≤ r.score).map
    fun r => r.text

/-- One run of `get_rag_context_weighted`, with every intermediate value
recorded alongside the returned triple.  `calls` logs each engine query issued
as a `(collection, query-text)` pair, in issue order.  The record mirrors the
Python control flow: four return paths (empty pool, domain filter rejection,
blended score below threshold, success). -/
structure RagCore where
  pool : List PNode
  bestScore : ℚ
  candidates : List PNode
  ctxScore : ℚ
  finalScore : ℚ
  text : Option PyStr
  score : ℚ
  sources : List PyStr
  calls : List (PyStr × PyStr)
deriving DecidableEq

/-- The body of `get_rag_context_weighted(current_query, conversation_history,
primary_weight, context_weight)` (Python defaults: `0.8` and `0.2`). -/
def getRagCore (svc : Services) (q : PyStr) (history : List Msg) (pw cw : ℚ) : RagCore :=
  if (pool_of svc q).isEmpty then
    { pool := pool_of svc q, bestScore := best_score_of svc q,
      candidates := top_results_of svc q, ctxScore := 0, finalScore := 0,
      text := none, score := 0, sources := [],
      calls := [(pyS "nhs", q), (pyS "cancer_research", q)] }
  else if !((links_of svc q).any allow_listed) then
    { pool := pool_of svc q, bestScore := best_score_of svc q,
      candidates := top_results_of svc q,
      ctxScore := contextual_score_of svc q history,
      finalScore := final_score_of svc q history pw cw,
      text := none, score := 0, sources := links_of svc q,
      calls := [(pyS "nhs", q), (pyS "cancer_research", q)] ++
        (if history.isEmpty then []
         else [(pyS "nhs", ctx_query_of history q), (pyS "cancer_research", ctx_query_of history q)]) }
  else if final_score_of svc q history pw cw < SIM_THRESHOLD then
    { pool := pool_of svc q, bestScore := best_score_of svc q,
      candidates := top_results_of svc q,
      ctxScore := contextual_score_of svc q history,
      finalScore := final_score_of svc q history pw cw,
      text := none, score := final_score_of svc q history pw cw, sources := links_of svc q,
      calls := [(pyS "nhs", q), (pyS "cancer_research", q)] ++
        (if history.isEmpty then []
         else [(pyS "nhs", ctx_query_of history q), (pyS "cancer_research", ctx_query_of history q)]) }
  else
    { pool := pool_of svc q, bestScore := best_score_of svc q,
      candidates := top_results_of svc q,
      ctxScore := contextual_score_of svc q history,
      finalScore := final_score_of svc q history pw cw,
      text :=
        if (context_parts_of svc q).isEmpty then none
        else some (List.intercalate (pyS "\n\n") (context_parts_of svc q)),
      score := final_score_of svc q history pw cw, sources := links_of svc q,
      calls := [(pyS "nhs", q), (pyS "cancer_research", q)] ++
        (if history.isEmpty then []
         else [(pyS "nhs", ctx_query_of history q), (pyS "cancer_research", ctx_query_of history q)]) }

/-- `get_rag_context_weighted`: the returned
`(context_text | None, similarity_score, sources)` triple. -/
def get_rag_context_weighted (svc : Services) (q : PyStr) (history : List Msg) (pw cw : ℚ) :
    Option PyStr × ℚ × List PyStr :=
  ((getRagCore svc q history pw cw).text, (getRagCore svc q history pw cw).score,
    (getRagCore svc q history pw cw).sources)

/-- `is_medical_question`: MEDICAL (`true`) exactly when the classifier call
succeeds and its stripped, upper-cased output is the label `MEDICAL`; any
service error defaults to MEDICAL. -/
def is_medical_question (svc : Services) (question : PyStr) : Bool :=
  match svc.classify question with
  | .error _ => true
  | .ok out => upperChars (pyStrip out) == pyS "MEDICAL"

/-- The fixed system prompt of `generate_response_with_gpt4o`. -/
def BASE_SYSTEM_PROMPT : PyStr := pyS
  ("You are **Kyra**, an AI health assistant.  \n" ++
   "Your mission: deliver clear, empathetic, evidence‑based health information\n" ++
   "while sounding friendly and conversational.\n" ++
   "\n" ++
   "**Context awareness**  \n" ++
   "• Read the entire conversation thread before replying.  \n" ++
   "• If the user follows up with “Is this serious?” etc., use prior messages to\n" ++
   "  understand what they mean.\n" ++
   "\n" ++
   "**General chat**  \n" ++
   "• Respond warmly, keep things light, avoid unnecessary jargon.\n" ++
   "\n" ++
   "**Anything non-medical that is not conversational**\n" ++
   "• Respond with saying \"I'm sorry, I can't help with that. I'm here to help with health questions.\"\n" ++
   "\n" ++
   "\n" ++
   "**Health questions**  \n" ++
   "• Always in the frist couple sentences mention the source of the information but \n" ++
   "in a smooth conversational way e.g. \"I'm using the NHS/CDC/WHO websites to answer this question.\"\n" ++
   "• Provide up‑to‑date, evidence‑based information (NHS, CDC, WHO, peer‑reviewed\n" ++
   "  studies).  \n" ++
   "• State your limits: you’re not a replacement for professional diagnosis or\n" ++
   "  treatment. Encourage consulting a qualified clinician for personalised care.  \n" ++
   "• Flag any red‑flag or emergency symptoms (e.g. chest pain, sudden vision loss)\n" ++
   "  and advise calling local emergency services or seeing a doctor urgently.  \n" ++
   "• Keep explanations in plain language; define unfamiliar medical terms.  \n" ++
   "• Do **not** prescribe specific drugs/doses or create treatment plans.  \n" ++
   "• If there is user context, use it to tailor your response.\n" ++
   "• If user shows self‑harm intent, respond with compassion and give crisis\n" ++
   "  hotline info for their region.\n")

/-- Text prepended to the retrieved excerpts in the evidence branch of the
system prompt. -/
def RAG_BLOCK_PRE : PyStr := pyS
  ("\n\n**Trusted reference material**  \n" ++
   "Below are vetted excerpts (primarily NHS and Cancer Research UK).  \n" ++
   "Use them to support your answer and cite them explicitly when quoted.\n\n")

/-- Text appended after the retrieved excerpts in the evidence branch. -/
def RAG_BLOCK_POST : PyStr := pyS
  ("\n\nBlend these passages with your broader medical knowledge; do not rely on them\n" ++
   "exclusively.\n")

/-- Prompt augmentation for a medical question with no usable evidence. -/
def NO_RAG_BLOCK : PyStr := pyS
  ("\nNo additional NHS documents were provided for this question. Rely on your\n" ++
   "general medical knowledge **and** finish with a “Sources:” section listing\n" ++
   "2‑3 authoritative, publicly accessible sites relevant to the topic, e.g.:\n" ++
   "\nSources:\n" ++
   "- NHS.uk – [Condition overview]\n" ++
   "- Mayo Clinic – [Condition overview]\n" ++
   "- WHO – [Condition overview]\n")

/-- The fixed apology returned when the generation call fails. -/
def APOLOGY : PyStr :=
  pyS "I'm having trouble responding right now. Please try again in a moment."

/-- `generate_response_with_gpt4o`: build the system prompt (evidence branch,
no-evidence medical branch, or bare), optionally append the user background,
send history plus the current message, and fall back to the fixed apology on a
service error.  The `sources` parameter exists in the source but is unused. -/
def generate_response_with_gpt4o (svc : Services) (messages : List Msg)
    (current_message : PyStr) (rag_context : Option PyStr) (sources : List PyStr)
    (is_medical : Bool) (user_context : Option PyStr) : PyStr :=
  let _ := sources
  let system_prompt := BASE_SYSTEM_PROMPT ++
    (match rag_context with
     | some ctx => RAG_BLOCK_PRE ++ ctx ++ RAG_BLOCK_POST
     | none => if is_medical then NO_RAG_BLOCK else [])
  let system_prompt :=
    if is_medical && optTruthy user_context then
      system_prompt ++ pyS "\n\n**User background/context:**\n" ++ user_context.getD [] ++ pyS "\n"
    else system_prompt
  let gpt_messages := Msg.mk (pyS "system") system_prompt ::
    (messages ++ [Msg.mk (pyS "user") current_message])
  match svc.complete gpt_messages with
  | .ok t => t
  | .error _ => APOLOGY

/-- Python `'.lower().replace(" ", "-").replace(",", "").replace("(", "").replace(")", "")'`
used to build URL slugs. -/
def slug_dash (topic : PyStr) : PyStr :=
  replaceAll (replaceAll (replaceAll (replaceAll (lowerChars topic) (pyS " ") (pyS "-"))
    (pyS ",") []) (pyS "(") []) (pyS ")") []

/-- The MedlinePlus slug drops spaces instead of dashing them. -/
def slug_nospace (topic : PyStr) : PyStr :=
  replaceAll (replaceAll (replaceAll (replaceAll (lowerChars topic) (pyS " ") [])
    (pyS ",") []) (pyS "(") []) (pyS ")") []

/-- Markdown link `[text](url)`. -/
def mdLink (text url : PyStr) : PyStr :=
  pyS "[" ++ text ++ pyS "](" ++ url ++ pyS ")"

/-- `convert_text_source_to_link`: rewrite a recognised publisher citation
(`"NHS.uk - Topic"` etc.) into a markdown link built from a per-publisher URL
template; unrecognised text is returned unchanged. -/
def convert_text_source_to_link (source_text : PyStr) : PyStr :=
  let lo := lowerChars source_text
  if containsSub lo (pyS "nhs.uk") then
    match splitFirstChar '-' source_text with
    | some (_, rest) =>
      mdLink source_text (pyS "https://www.nhs.uk/conditions/" ++ slug_dash (pyStrip rest) ++ pyS "/")
    | none => mdLink source_text (pyS "https://www.nhs.uk/")
  else if containsSub lo (pyS "mayo clinic") then
    match splitFirstChar '-' source_text with
    | some (_, rest) =>
      mdLink source_text (pyS "https://www.mayoclinic.org/diseases-conditions/" ++
        slug_dash (pyStrip rest) ++ pyS "/symptoms-causes/syc-20354349")
    | none => mdLink source_text (pyS "https://www.mayoclinic.org/")
  else if containsSub lo (pyS "cdc") then
    match splitFirstChar '-' source_text with
    | some _ => mdLink source_text (pyS "https://www.cdc.gov/")
    | none => mdLink source_text (pyS "https://www.cdc.gov/")
  else if containsSub lo (pyS "webmd") then
    match splitFirstChar '-' source_text with
    | some (_, rest) =>
      mdLink source_text (pyS "https://www.webmd.com/a-to-z-guides/" ++ slug_dash (pyStrip rest))
    | none => mdLink source_text (pyS "https://www.webmd.com/")
  else if containsSub lo (pyS "medlineplus") then
    match splitFirstChar '-' source_text with
    | some (_, rest) =>
      mdLink source_text (pyS "https://medlineplus.gov/" ++ slug_nospace (pyStrip rest) ++ pyS ".html")
    | none => mdLink source_text (pyS "https://medlineplus.gov/")
  else if containsSub lo (pyS "cancer research") || containsSub lo (pyS "cancerresearchuk") then
    match splitFirstChar '-' source_text with
    | some (_, rest) =>
      mdLink source_text (pyS "https://www.cancerresearchuk.org/about-cancer/" ++ slug_dash (pyStrip rest))
    | none => mdLink source_text (pyS "https://www.cancerresearchuk.org/")
  else source_text

/-- Model of `urllib.parse.urlparse(url)` restricted to `netloc + path` for the
absolute http(s) URLs this formatter feeds it: the text after `://` up to a
query (`?`) or fragment (`#`) delimiter. -/
def url_netloc_path (url : PyStr) : PyStr :=
  match splitFirstSub (pyS "://") url with
  | some (_, hostpath) =>
    let nofrag := match splitFirstChar '#' hostpath with | some (a, _) => a | none => hostpath
    match splitFirstChar '?' nofrag with | some (a, _) => a | none => nofrag
  | none => url

/-- One bullet of the knowledge-base sources section: URLs become markdown
links whose display text is `netloc + path` truncated to 60 characters, other
values stay plain. -/
def render_source_line (source : PyStr) : PyStr :=
  if startsWithChars source (pyS "http://") || startsWithChars source (pyS "https://") then
    let d := url_netloc_path source
    let d := if 60 < d.length then d.take 57 ++ pyS "..." else d
    pyS "- [" ++ d ++ pyS "](" ++ source ++ pyS ")\n"
  else pyS "- " ++ source ++ pyS "\n"

/-- The scan over response lines in the general-knowledge branch: collects the
`- `-bulleted entries after a `sources:` heading (stopping at the first
non-empty, non-bulleted line once inside the section) and the line
replacements that make recognised citations clickable. -/
def extractLoop : List PyStr → Bool → List PyStr × List (PyStr × PyStr)
  | [], _ => ([], [])
  | line :: rest, inS =>
    let st := pyStrip line
    if startsWithChars (lowerChars st) (pyS "sources:") then extractLoop rest true
    else if inS && startsWithChars st (pyS "-") then
      let source_text := pyStrip (st.drop 1)
      let r := extractLoop rest true
      let click := convert_text_source_to_link source_text
      (source_text :: r.1,
        if click ≠ source_text then (line, pyS "- " ++ click) :: r.2 else r.2)
    else if inS && !st.isEmpty then ([], [])
    else extractLoop rest inS

/-- Source extraction from a generated response, guarded by the check that a
`Sources:` marker occurs at all. -/
def extract_gpt_sources (response : PyStr) : List PyStr × List (PyStr × PyStr) :=
  if containsSub response (pyS "Sources:") || containsSub (lowerChars response) (pyS "sources:") then
    extractLoop (splitChar '\n' response) false
  else ([], [])

/-- The generic attribution note appended when no sources were extracted. -/
def NOTE_TEXT : PyStr := pyS
  ("\n\n\n**Note:** This response is based on general medical knowledge (GPT-4o AI), " ++
   "not our internal knowledge base. For official NHS guidance, please visit NHS.uk " ++
   "or consult your healthcare provider.")

/-- `format_response_with_sources(response, sources, metadata)`. -/
def format_response_with_sources (response : PyStr) (sources : List PyStr)
    (metadata : List (String × MVal)) : PyStr × List PyStr :=
  if !(metaTruthy metadata "is_medical") then (response, sources)
  else if metaTruthy metadata "used_rag" && !sources.isEmpty then
    let unique_sources := dedupKeepFirst sources
    let response :=
      if !unique_sources.isEmpty then
        response ++ pyS "\n\n**Sources (Kyra's Knowledge Base):**\n" ++
          (unique_sources.map render_source_line).flatten
      else response
    (response, unique_sources)
  else
    let ex := extract_gpt_sources response
    let response := ex.2.foldl (fun r p => replaceAll r p.1 p.2) response
    let unique_gpt_sources := dedupKeepFirst ex.1
    let response :=
      if !unique_gpt_sources.isEmpty then
        replaceAll response (pyS "Sources:")
          (pyS "**Sources (General Medical Knowledge - GPT-4o):**")
      else response ++ NOTE_TEXT
    (response, if !unique_gpt_sources.isEmpty then unique_gpt_sources else sources)

/-- `original_query if original_query else query` (Python truthiness: `None`
and the empty string both fall back to `query`). -/
def orQuery (oq : Option PyStr) (q : PyStr) : PyStr :=
  match oq with
  | some s => if s.isEmpty then q else s
  | none => q

/-- `answer(query, conversation_history, original_query, user_context)`:
classify (on the original query when truthy), retrieve weighted evidence for
medical questions with the default weights `0.8`/`0.2`, generate, format, and
assemble `(response_text, sources, metadata)`. -/
def answer (svc : Services) (query : PyStr) (conversation_history : List Msg)
    (original_query : Option PyStr) (user_context : Option PyStr) :
    PyStr × List PyStr × List (String × MVal) :=
  let classify_query := orQuery original_query query
  let current_message := orQuery original_query query
  let is_medical := is_medical_question svc classify_query
  let messages := conversation_history
  let rag :=
    if is_medical then get_rag_context_weighted svc current_message conversation_history
      (Rat.divInt 8 10) (Rat.divInt 2 10)
    else (none, 0, [])
  let response := generate_response_with_gpt4o svc messages current_message rag.1 rag.2.2
    is_medical user_context
  let fmtMeta : List (String × MVal) :=
    [("is_medical", .b is_medical), ("used_rag", .b rag.1.isSome), ("rag_score", .q rag.2.1),
     ("model_used", .s (pyS "gpt-4o")), ("conversation_length", .n messages.length)]
  let fr := format_response_with_sources response rag.2.2 fmtMeta
  let metadata := fmtMeta ++ [("sources_count", .n fr.2.length)]
  (fr.1, fr.2, metadata)

instance : IsTotal PNode byScoreDesc := ⟨fun a b => le_total b.score a.score⟩

instance : IsTrans PNode byScoreDesc := ⟨fun _ _ _ hab hbc => le_trans hbc hab⟩

/-- Oracle set where the primary NHS query for `Q` returns one allow-listed
node scored `0.2` and the contextual query scores `1`. -/
def svcGateCex : Services where
  classify := fun _ => .error ()
  nhsQuery := fun t =>
    if t = pyS "Q" then some [⟨pyS "txt", some (Rat.divInt 1 5), pyS "https://www.nhs.uk/a"⟩]
    else some [⟨[], some 1, []⟩]
  cancerQuery := fun _ => none
  complete := fun _ => .error ()

/-- Oracle set returning one well-scored node from a non-allow-listed domain. -/
def svcDomainCex : Services where
  classify := fun _ => .error ()
  nhsQuery := fun _ => some [⟨pyS "t", some (Rat.divInt 1 2), pyS "https://example.com/x"⟩]
  cancerQuery := fun _ => none
  complete := fun _ => .error ()

/-- Oracle set whose classifier call succeeds with an unparseable label. -/
def svcBanana : Services where
  classify := fun _ => .ok (pyS "BANANA")
  nhsQuery := fun _ => none
  cancerQuery := fun _ => none
  complete := fun _ => .error ()

/-- Oracle set where classification yields MEDICAL, every retrieval query
raises, and the generation call fails. -/
def svcGenFail : Services where
  classify := fun _ => .ok (pyS "MEDICAL")
  nhsQuery := fun _ => none
  cancerQuery := fun _ => none
  complete := fun _ => .error ()

/-- Oracle set returning one allow-listed node scored `0.5` from the NHS
collection. -/
def svcEvidence : Services where
  classify := fun _ => .error ()
  nhsQuery := fun _ => some [⟨pyS "T", some (Rat.divInt 1 2), pyS "https://www.nhs.uk/x"⟩]
  cancerQuery := fun _ => none
  complete := fun _ => .error ()

/-- Oracle set whose classifier output depends on the question it is asked. -/
def svcQDep : Services where
  classify := fun t => .ok (if t = pyS "MED?" then pyS "MEDICAL" else pyS "GENERAL")
  nhsQuery := fun _ => none
  cancerQuery := fun _ => none
  complete := fun _ => .ok (pyS "resp")

theorem qmul_eq (a b : ℚ) : qmul a b = a * b := by
  rw [qmul]
  conv_rhs => rw [← Rat.num_divInt_den a, ← Rat.num_divInt_den b]
  rw [Rat.divInt_mul_divInt']

theorem qadd_eq (a b : ℚ) : qadd a b = a + b := by
  rw [qadd]
  conv_rhs => rw [← Rat.num_divInt_den a, ← Rat.num_divInt_den b]
  rw [Rat.divInt_add_divInt]
  · exact_mod_cast a.den_nz
  · exact_mod_cast b.den_nz

theorem SIM_THRESHOLD_value : SIM_THRESHOLD = 0.30 := by
  rw [SIM_THRESHOLD, Rat.divInt_eq_div]
  norm_num

theorem node_cut_eq : qmul SIM_THRESHOLD (Rat.divInt 8 10) = SIM_THRESHOLD * 0.8 := by
  rw [qmul_eq]
  congr 1
  rw [Rat.divInt_eq_div]
  norm_num

theorem final_score_eq (svc : Services) (q : PyStr) (history : List Msg) (pw cw : ℚ) :
    final_score_of svc q history pw cw =
      pw * best_score_of svc q + cw * contextual_score_of svc q history := by
  rw [final_score_of, qadd_eq, qmul_eq, qmul_eq]

theorem allow_of_mem_links {l : List PNode} {u : PyStr} (hu : u ∈ l.filterMap link_of) :
    allow_listed u = true := by
  rcases List.mem_filterMap.mp hu with ⟨r, _, hr⟩
  unfold link_of at hr
  split_ifs at hr with h
  · cases hr
    simp only [Bool.and_eq_true] at h
    exact h.2

theorem links_nonempty_any {l : List PNode} (h : l.filterMap link_of ≠ []) :
    (l.filterMap link_of).any allow_listed = true := by
  rcases List.exists_mem_of_ne_nil _ h with ⟨u, hu⟩
  exact List.any_eq_true.mpr ⟨u, hu, allow_of_mem_links hu⟩

theorem links_eq_nil_of_any_false {l : List PNode}
    (h : (l.filterMap link_of).any allow_listed = false) : l.filterMap link_of = [] := by
  by_contra hne
  rw [links_nonempty_any hne] at h
  exact Bool.true_eq_false.mp h |>.elim

theorem ragCore_pool (svc : Services) (q : PyStr) (history : List Msg) (pw cw : ℚ) :
    (getRagCore svc q history pw cw).pool = pool_of svc q := by
  unfold getRagCore
  split_ifs <;> rfl

theorem ragCore_candidates (svc : Services) (q : PyStr) (history : List Msg) (pw cw : ℚ) :
    (getRagCore svc q history pw cw).candidates = top_results_of svc q := by
  unfold getRagCore
  split_ifs <;> rfl

theorem ragCore_bestScore (svc : Services) (q : PyStr) (history : List Msg) (pw cw : ℚ) :
    (getRagCore svc q history pw cw).bestScore = best_score_of svc q := by
  unfold getRagCore
  split_ifs <;> rfl

theorem dedupFrom_sublist (l : List PyStr) : ∀ seen, (dedupFrom seen l).Sublist l := by
  induction l with
  | nil => intro seen; simp [dedupFrom]
  | cons x xs ih =>
    intro seen
    rw [dedupFrom]
    split_ifs with h
    · exact (ih seen).cons x
    · exact (ih (x :: seen)).cons₂ x

theorem mem_dedupFrom_not_seen (l : List PyStr) :
    ∀ seen a, a ∈ dedupFrom seen l → a ∉ seen := by
  induction l with
  | nil => intro seen a h; simp [dedupFrom] at h
  | cons x xs ih =>
    intro seen a h
    rw [dedupFrom] at h
    split_ifs at h with hc
    · exact ih seen a h
    · rcases List.mem_cons.mp h with rfl | hm
      · exact hc
      · exact fun hmem => (ih (x :: seen) a hm) (List.mem_cons_of_mem x hmem)

theorem dedupFrom_nodup (l : List PyStr) : ∀ seen, (dedupFrom seen l).Nodup := by
  induction l with
  | nil => intro seen; simp [dedupFrom]
  | cons x xs ih =>
    intro seen
    rw [dedupFrom]
    split_ifs with hc
    · exact ih seen
    · refine List.nodup_cons.mpr ⟨?_, ih (x :: seen)⟩
      intro hx
      exact (mem_dedupFrom_not_seen xs (x :: seen) x hx) (List.mem_cons_self x seen)

theorem dedup_sublist (l : List PyStr) : (dedupKeepFirst l).Sublist l := dedupFrom_sublist l []

theorem dedup_nodup (l : List PyStr) : (dedupKeepFirst l).Nodup := dedupFrom_nodup l []

theorem dedup_nil_iff (l : List PyStr) : dedupKeepFirst l = [] ↔ l = [] := by
  cases l with
  | nil => simp [dedupKeepFirst, dedupFrom]
  | cons x xs => simp [dedupKeepFirst, dedupFrom]

/-- C3 (amended): the classifier answers MEDICAL exactly when the completion
call fails (fail-safe default) or when the call succeeds and the stripped,
upper-cased output is the label `MEDICAL`; every other successful output —
including unparseable text — yields GENERAL. -/
theorem classifier_label_handling (svc : Services) (q : PyStr) :
    is_medical_question svc q = true ↔
      ((∃ e, svc.classify q = .error e) ∨
        (∃ out, svc.classify q = .ok out ∧ upperChars (pyStrip out) = pyS "MEDICAL")) := by
  unfold is_medical_question
  cases h : svc.classify q with
  | error e => simp [h]
  | ok out => simp [h]

/-- C3 counterexample: on the unparseable classifier output `BANANA` — neither
of the two expected labels — `is_medical_question` returns `false` (GENERAL),
not the MEDICAL default the claim states. -/
theorem classifier_unparseable_cex :
    is_medical_question svcBanana (pyS "q") = false ∧
    svcBanana.classify (pyS "q") = .ok (pyS "BANANA") ∧
    pyS "BANANA" ≠ pyS "MEDICAL" ∧ pyS "BANANA" ≠ pyS "GENERAL" :=
  ⟨by decide, rfl, by decide, by decide⟩

/-- C9: for a non-medical question (`is_medical` metadata falsy), the source
formatter returns the response text and sources list unchanged. -/
theorem non_medical_passthrough (response : PyStr) (sources : List PyStr)
    (metadata : List (String × MVal)) (h : metaTruthy metadata "is_medical" = false) :
    format_response_with_sources response sources metadata = (response, sources) := by
  unfold format_response_with_sources
  rw [h]
  rfl

/-- C9 witness: the pass-through on a concrete non-medical call. -/
theorem non_medical_passthrough_witness :
    format_response_with_sources (pyS "hello") [pyS "A", pyS "A"]
        [("is_medical", MVal.b false)] = (pyS "hello", [pyS "A", pyS "A"]) :=
  non_medical_passthrough (pyS "hello") [pyS "A", pyS "A"]
    [("is_medical", MVal.b false)] (by decide)

/-- C8: with an empty conversation history the contextual score is `0` and the
only engine queries issued are one per collection with the primary query. -/
theorem empty_history_no_contextual_query (svc : Services) (q : PyStr) (pw cw : ℚ) :
    (getRagCore svc q [] pw cw).ctxScore = 0 ∧
    (getRagCore svc q [] pw cw).calls = [(pyS "nhs", q), (pyS "cancer_research", q)] := by
  unfold getRagCore
  split_ifs <;> simp_all [contextual_score_of, ctx_scores_of]

theorem links_of_any_false {svc : Services} {q : PyStr}
    (h : (links_of svc q).any allow_listed = false) : links_of svc q = [] := by
  unfold links_of at h ⊢
  exact links_eq_nil_of_any_false h

/-- C1 (amended): a non-null evidence text is returned iff the allow-listed
source list is non-empty, the blended score is at least the threshold 0.30
(boundary inclusive), and — a condition the original claim omits — at least one
candidate node individually scores at least `0.8 * threshold`. -/
theorem evidence_gate_characterization (svc : Services) (q : PyStr) (history : List Msg)
    (pw cw : ℚ) :
    (getRagCore svc q history pw cw).text ≠ none ↔
      ((getRagCore svc q history pw cw).sources ≠ [] ∧
        SIM_THRESHOLD ≤ (getRagCore svc q history pw cw).finalScore ∧
        ∃ r ∈ (getRagCore svc q history pw cw).candidates, SIM_THRESHOLD * 0.8 ≤ r.score) := by
  unfold getRagCore
  by_cases h1 : (pool_of svc q).isEmpty = true
  · rw [if_pos h1]
    simp
  · rw [if_neg h1]
    by_cases h2 : (!(links_of svc q).any allow_listed) = true
    · rw [if_pos h2]
      have hb : (links_of svc q).any allow_listed = false := by
        revert h2
        cases (links_of svc q).any allow_listed <;> simp
      have hl : links_of svc q = [] := links_of_any_false hb
      simp [hl]
    · rw [if_neg h2]
      have hlinks : links_of svc q ≠ [] := by
        intro he
        apply h2
        rw [he]
        rfl
      by_cases h3 : final_score_of svc q history pw cw < SIM_THRESHOLD
      · rw [if_pos h3]
        constructor
        · intro hn
          exact absurd rfl hn
        · rintro ⟨-, hle, -⟩
          exact absurd h3 (not_lt.mpr hle)
      · rw [if_neg h3]
        have hfin : SIM_THRESHOLD ≤ final_score_of svc q history pw cw := not_lt.mp h3
        by_cases hp : (context_parts_of svc q).isEmpty = true
        · rw [if_pos hp]
          constructor
          · intro hn
            exact absurd rfl hn
          · rintro ⟨-, -, r, hr, hscore⟩
            have hall := List.filter_eq_nil_iff.mp
              (List.map_eq_nil_iff.mp (List.isEmpty_iff.mp hp))
            exact ((hall r hr) (decide_eq_true (by rw [node_cut_eq]; exact hscore))).elim
        · rw [if_neg hp]
          refine iff_of_true (by simp) ⟨hlinks, hfin, ?_⟩
          have hne : context_parts_of svc q ≠ [] := fun he => hp (by rw [he]; rfl)
          have hf : (top_results_of svc q).filter
              (fun r => decide (qmul SIM_THRESHOLD (Rat.divInt 8 10) ≤ r.score)) ≠ [] := by
            intro he
            apply hne
            unfold context_parts_of
            rw [he]
            rfl
          rcases List.exists_mem_of_ne_nil _ hf with ⟨r, hr⟩
          have hrt := List.mem_filter.mp hr
          refine ⟨r, hrt.1, ?_⟩
          rw [← node_cut_eq]
          exact of_decide_eq_true hrt.2

/-- C1 counterexample: a retrieval outcome where an allow-listed source is
present and the blended score is `0.36 ≥ 0.30`, yet no evidence text is
returned (every candidate node scores below `0.24`), refuting the claimed
two-condition iff. -/
theorem evidence_gate_claim_cex :
    (get_rag_context_weighted svcGateCex (pyS "Q") [⟨pyS "user", pyS "hi"⟩]
        (Rat.divInt 8 10) (Rat.divInt 2 10)).1 = none ∧
    (get_rag_context_weighted svcGateCex (pyS "Q") [⟨pyS "user", pyS "hi"⟩]
        (Rat.divInt 8 10) (Rat.divInt 2 10)).2.2 ≠ [] ∧
    SIM_THRESHOLD ≤ (get_rag_context_weighted svcGateCex (pyS "Q") [⟨pyS "user", pyS "hi"⟩]
        (Rat.divInt 8 10) (Rat.divInt 2 10)).2.1 :=
  ⟨by decide, by decide, by decide⟩

/-- C2 (amended): with at least one pooled result, the similarity score
returned by weighted retrieval equals
`primaryWeight * primaryScore + contextWeight * contextualScore` on every
return path on which an allow-listed source survived; on the
domain-filter-reject path (no allow-listed source) the code returns `0.0`
instead of the blended value. -/
theorem blended_score_return_paths (svc : Services) (q : PyStr) (history : List Msg)
    (pw cw : ℚ) (hpool : (getRagCore svc q history pw cw).pool ≠ []) :
    ((getRagCore svc q history pw cw).sources ≠ [] →
      (getRagCore svc q history pw cw).score =
        pw * (getRagCore svc q history pw cw).bestScore +
          cw * (getRagCore svc q history pw cw).ctxScore) ∧
    ((getRagCore svc q history pw cw).sources = [] →
      (getRagCore svc q history pw cw).score = 0) := by
  rw [ragCore_pool] at hpool
  unfold getRagCore
  by_cases h1 : (pool_of svc q).isEmpty = true
  · exact absurd (List.isEmpty_iff.mp h1) hpool
  · rw [if_neg h1]
    by_cases h2 : (!(links_of svc q).any allow_listed) = true
    · rw [if_pos h2]
      have hl : links_of svc q = [] := links_of_any_false
        (by revert h2; cases (links_of svc q).any allow_listed <;> simp)
      constructor
      · intro hs
        exact absurd hl hs
      · intro _
        rfl
    · rw [if_neg h2]
      have hlinks : links_of svc q ≠ [] := fun he => h2 (by rw [he]; rfl)
      by_cases h3 : final_score_of svc q history pw cw < SIM_THRESHOLD
      · rw [if_pos h3]
        constructor
        · intro _
          exact final_score_eq svc q history pw cw
        · intro hs
          exact (hlinks hs).elim
      · rw [if_neg h3]
        constructor
        · intro _
          exact final_score_eq svc q history pw cw
        · intro hs
          exact (hlinks hs).elim

/-- C2 witness: on a concrete pooled outcome with one allow-listed node scored
`0.5` and no history, the returned score satisfies the blend equation. -/
theorem blended_score_return_paths_witness :
    (getRagCore svcEvidence (pyS "q") [] (Rat.divInt 8 10) (Rat.divInt 2 10)).score =
      Rat.divInt 8 10 * (getRagCore svcEvidence (pyS "q") [] (Rat.divInt 8 10) (Rat.divInt 2 10)).bestScore +
        Rat.divInt 2 10 * (getRagCore svcEvidence (pyS "q") [] (Rat.divInt 8 10) (Rat.divInt 2 10)).ctxScore :=
  (blended_score_return_paths svcEvidence (pyS "q") [] (Rat.divInt 8 10) (Rat.divInt 2 10)
    (by decide)).1 (by decide)

/-- C2 counterexample: one pooled node scored `0.5` from a non-allow-listed
domain — the blend is `0.4` but the domain-reject path returns `0.0`, so the
claimed equation fails on that return path. -/
theorem blended_score_claim_cex :
    (get_rag_context_weighted svcDomainCex (pyS "q") [] (Rat.divInt 8 10) (Rat.divInt 2 10)).2.1 = 0 ∧
    (getRagCore svcDomainCex (pyS "q") [] (Rat.divInt 8 10) (Rat.divInt 2 10)).pool ≠ [] ∧
    Rat.divInt 8 10 * (getRagCore svcDomainCex (pyS "q") [] (Rat.divInt 8 10) (Rat.divInt 2 10)).bestScore +
      Rat.divInt 2 10 * (getRagCore svcDomainCex (pyS "q") [] (Rat.divInt 8 10) (Rat.divInt 2 10)).ctxScore ≠ 0 := by
  refine ⟨by decide, by decide, ?_⟩
  have hb : (getRagCore svcDomainCex (pyS "q") [] (Rat.divInt 8 10) (Rat.divInt 2 10)).bestScore =
      Rat.divInt 1 2 := by decide
  have hc : (getRagCore svcDomainCex (pyS "q") [] (Rat.divInt 8 10) (Rat.divInt 2 10)).ctxScore =
      0 := by decide
  rw [hb, hc, Rat.divInt_eq_div, Rat.divInt_eq_div, Rat.divInt_eq_div]
  norm_num

/-- C5: pooled nodes are sorted by score descending (a permutation of the
pool, pairwise ordered) and the top 6 are kept as candidates; whenever
evidence text is produced it is exactly the blank-line-joined texts of those
candidates whose individual score is at least `0.8 * threshold` (0.24), in
that descending-score order. -/
theorem candidate_selection_and_evidence_text (svc : Services) (q : PyStr)
    (history : List Msg) (pw cw : ℚ) :
    (sortPNodes (pool_of svc q)).Perm (pool_of svc q) ∧
    List.Pairwise byScoreDesc (getRagCore svc q history pw cw).candidates ∧
    (getRagCore svc q history pw cw).candidates = (sortPNodes (pool_of svc q)).take 6 ∧
    (∀ t, (getRagCore svc q history pw cw).text = some t →
      t = List.intercalate (pyS "\n\n")
        (((getRagCore svc q history pw cw).candidates.filter
            fun r => SIM_THRESHOLD * 0.8 ≤ r.score).map fun r => r.text)) := by
  refine ⟨List.perm_insertionSort byScoreDesc (pool_of svc q), ?_, ?_, ?_⟩
  · rw [ragCore_candidates]
    exact List.Pairwise.sublist (List.take_sublist 6 _)
      (List.sorted_insertionSort byScoreDesc (pool_of svc q))
  · rw [ragCore_candidates]
    rfl
  · intro t ht
    rw [ragCore_candidates]
    unfold getRagCore at ht
    by_cases h1 : (pool_of svc q).isEmpty = true
    · rw [if_pos h1] at ht
      exact absurd ht (by simp)
    · rw [if_neg h1] at ht
      by_cases h2 : (!(links_of svc q).any allow_listed) = true
      · rw [if_pos h2] at ht
        exact absurd ht (by simp)
      · rw [if_neg h2] at ht
        by_cases h3 : final_score_of svc q history pw cw < SIM_THRESHOLD
        · rw [if_pos h3] at ht
          exact absurd ht (by simp)
        · rw [if_neg h3] at ht
          by_cases hp : (context_parts_of svc q).isEmpty = true
          · rw [if_pos hp] at ht
            exact absurd ht (by simp)
          · rw [if_neg hp] at ht
            simp only [← node_cut_eq]
            exact (Option.some.inj ht).symm

/-- C5 witness: on a concrete single-node outcome the produced evidence text
equals the join of the qualifying candidate texts. -/
theorem candidate_selection_and_evidence_text_witness :
    pyS "T" = List.intercalate (pyS "\n\n")
      (((getRagCore svcEvidence (pyS "q") [] (Rat.divInt 8 10)
          (Rat.divInt 2 10)).candidates.filter
        fun r => SIM_THRESHOLD * 0.8 ≤ r.score).map fun r => r.text) :=
  (candidate_selection_and_evidence_text svcEvidence (pyS "q") [] (Rat.divInt 8 10)
    (Rat.divInt 2 10)).2.2.2 (pyS "T") (by decide)

theorem getRagCore_oracle_congr (svc1 svc2 : Services) (q : PyStr) (history : List Msg)
    (pw cw : ℚ) (hp : pool_of svc1 q = pool_of svc2 q)
    (hc : ctx_scores_of svc1 q history = ctx_scores_of svc2 q history) :
    getRagCore svc1 q history pw cw = getRagCore svc2 q history pw cw := by
  simp only [getRagCore, top_results_of, best_score_of, links_of, context_parts_of,
    final_score_of, contextual_score_of]
  rw [hp, hc]

/-- C6: a collection whose query raises contributes exactly what an empty
result would — retrieval continues with the other collection — and when the
pool is empty (both queries failed or no node carried a usable score)
retrieval returns no text, score `0.0`, and no sources. -/
theorem retrieval_failure_degradation (svc : Services) (q : PyStr) (history : List Msg)
    (pw cw : ℚ) :
    (get_rag_context_weighted { svc with nhsQuery := fun _ => none } q history pw cw =
      get_rag_context_weighted { svc with nhsQuery := fun _ => some [] } q history pw cw) ∧
    (get_rag_context_weighted { svc with cancerQuery := fun _ => none } q history pw cw =
      get_rag_context_weighted { svc with cancerQuery := fun _ => some [] } q history pw cw) ∧
    (pool_of svc q = [] → get_rag_context_weighted svc q history pw cw = (none, 0, [])) := by
  refine ⟨?_, ?_, ?_⟩
  · unfold get_rag_context_weighted
    rw [getRagCore_oracle_congr { svc with nhsQuery := fun _ => none }
      { svc with nhsQuery := fun _ => some [] } q history pw cw
      (by simp [pool_of, poolFrom]) (by simp [ctx_scores_of, ctxScoresFrom])]
  · unfold get_rag_context_weighted
    rw [getRagCore_oracle_congr { svc with cancerQuery := fun _ => none }
      { svc with cancerQuery := fun _ => some [] } q history pw cw
      (by simp [pool_of, poolFrom]) (by simp [ctx_scores_of, ctxScoresFrom])]
  · intro h
    unfold get_rag_context_weighted getRagCore
    rw [if_pos (List.isEmpty_iff.mpr h)]

/-- C6 witness: when both collection queries raise, the returned triple is
`(None, 0.0, [])`. -/
theorem retrieval_failure_degradation_witness :
    get_rag_context_weighted svcGenFail (pyS "q") [] (Rat.divInt 8 10) (Rat.divInt 2 10) =
      (none, 0, []) :=
  (retrieval_failure_degradation svcGenFail (pyS "q") [] (Rat.divInt 8 10)
    (Rat.divInt 2 10)).2.2 (by decide)

theorem format_apology_prefix (sources : List PyStr) (metadata : List (String × MVal)) :
    ∃ t, (format_response_with_sources APOLOGY sources metadata).1 = APOLOGY ++ t := by
  have hng : extract_gpt_sources APOLOGY = ([], []) := by decide
  unfold format_response_with_sources
  cases hm : metaTruthy metadata "is_medical" with
  | false =>
    refine ⟨[], ?_⟩
    simp [hm]
  | true =>
    cases hr : (metaTruthy metadata "used_rag" && !sources.isEmpty) with
    | true =>
      cases hu : (dedupKeepFirst sources).isEmpty with
      | true =>
        refine ⟨[], ?_⟩
        simp [hm, hr, hu]
      | false =>
        refine ⟨pyS "\n\n**Sources (Kyra's Knowledge Base):**\n" ++
          ((dedupKeepFirst sources).map render_source_line).flatten, ?_⟩
        simp [hm, hr, hu, List.append_assoc]
    | false =>
      refine ⟨NOTE_TEXT, ?_⟩
      simp [hm, hr, hng, dedupKeepFirst, dedupFrom]

/-- C4 (amended): when the generation call fails, the generator itself returns
the fixed apology and the pipeline continues normally — the formatter may
append an attribution note or sources section to the apology — and the
metadata produced by `answer` contains no `error` flag (that flag exists only
in the web layer's handler for exceptions escaping `answer`). -/
theorem generation_failure_behavior (svc : Services) (q : PyStr) (history : List Msg)
    (oq uc : Option PyStr) (hc : ∀ m, svc.complete m = .error ()) :
    (∃ t, (answer svc q history oq uc).1 = APOLOGY ++ t) ∧
    ((answer svc q history oq uc).2.2).lookup "error" = none := by
  constructor
  · have hg : ∀ msgs cm rc s im ucx,
        generate_response_with_gpt4o svc msgs cm rc s im ucx = APOLOGY := by
      intro msgs cm rc s im ucx
      unfold generate_response_with_gpt4o
      simp only [hc]
    simp only [answer]
    rw [hg]
    exact format_apology_prefix _ _
  · rfl

/-- C4 witness: the amended behavior at a concrete failing-generation run. -/
theorem generation_failure_behavior_witness :
    (∃ t, (answer svcGenFail (pyS "q") [] none none).1 = APOLOGY ++ t) ∧
    ((answer svcGenFail (pyS "q") [] none none).2.2).lookup "error" = none :=
  generation_failure_behavior svcGenFail (pyS "q") [] none none (fun _ => rfl)

set_option maxRecDepth 4000 in
/-- C4 counterexample: with classification MEDICAL, failed retrieval, and a
failing generation call, the pipeline's result text is the apology with the
general-knowledge note appended — not exactly the fixed apology text — and the
metadata carries no `error = true` entry. -/
theorem generation_failure_claim_cex :
    (answer svcGenFail (pyS "q") [] none none).1 = APOLOGY ++ NOTE_TEXT ∧
    (answer svcGenFail (pyS "q") [] none none).1 ≠ APOLOGY ∧
    ((answer svcGenFail (pyS "q") [] none none).2.2).lookup "error" = none ∧
    (answer svcGenFail (pyS "q") [] none none).2.1 = [] :=
  ⟨by decide, by decide, rfl, by decide⟩

/-- First-seen-order deduplication on the spec's own example. -/
theorem dedup_example :
    dedupKeepFirst [pyS "A", pyS "B", pyS "A", pyS "C"] = [pyS "A", pyS "B", pyS "C"] := by
  decide

/-- C7 (amended): for medical formatting calls, the evidence branch
(`used_rag` truthy and non-empty sources) returns the deduplicated
first-seen-order source list; the general-knowledge branch returns the
deduplicated extracted citations when at least one entry was extracted, and
otherwise returns the input `sources` list unchanged (not the empty list).
Deduplication keeps first occurrences in order (no duplicates, a sublist of
the input). -/
theorem final_sources_branches (response : PyStr) (sources : List PyStr)
    (metadata : List (String × MVal)) (hm : metaTruthy metadata "is_medical" = true) :
    ((metaTruthy metadata "used_rag" = true ∧ sources ≠ []) →
      (format_response_with_sources response sources metadata).2 = dedupKeepFirst sources) ∧
    (¬(metaTruthy metadata "used_rag" = true ∧ sources ≠ []) →
      (format_response_with_sources response sources metadata).2 =
        (if (extract_gpt_sources response).1 = [] then sources
         else dedupKeepFirst (extract_gpt_sources response).1)) ∧
    (dedupKeepFirst sources).Nodup ∧ (dedupKeepFirst sources).Sublist sources := by
  refine ⟨?_, ?_, dedup_nodup sources, dedup_sublist sources⟩
  · rintro ⟨hr, hs⟩
    have hse : sources.isEmpty = false := by
      cases sources with
      | nil => exact absurd rfl hs
      | cons x xs => rfl
    unfold format_response_with_sources
    simp [hm, hr, hse]
  · intro hn
    have hcond : (metaTruthy metadata "used_rag" && !sources.isEmpty) = false := by
      cases hr : metaTruthy metadata "used_rag" with
      | false => simp
      | true =>
        cases sources with
        | nil => simp
        | cons x xs => exact absurd ⟨hr, List.cons_ne_nil x xs⟩ hn
    unfold format_response_with_sources
    by_cases he : (extract_gpt_sources response).1 = []
    · simp [hm, hcond, he, dedupKeepFirst, dedupFrom]
    · have hd : dedupKeepFirst (extract_gpt_sources response).1 ≠ [] :=
        fun h => he ((dedup_nil_iff _).mp h)
      have hdi : (dedupKeepFirst (extract_gpt_sources response).1).isEmpty = false := by
        cases hdk : dedupKeepFirst (extract_gpt_sources response).1 with
        | nil => exact absurd hdk hd
        | cons x xs => rfl
      simp [hm, hcond, he, hdi]

/-- C7 witness: the evidence branch on the spec's example source list returns
the deduplicated list. -/
theorem final_sources_branches_witness :
    (format_response_with_sources (pyS "r") [pyS "A", pyS "B", pyS "A", pyS "C"]
        [("is_medical", MVal.b true), ("used_rag", MVal.b true)]).2 =
      dedupKeepFirst [pyS "A", pyS "B", pyS "A", pyS "C"] :=
  (final_sources_branches (pyS "r") [pyS "A", pyS "B", pyS "A", pyS "C"]
    [("is_medical", MVal.b true), ("used_rag", MVal.b true)] (by decide)).1
    ⟨by decide, by decide⟩

/-- C7 counterexample: a medical, no-evidence call whose response holds no
`Sources:` section returns the input sources list `["A","A"]` unchanged —
neither deduplicated nor equal to the (empty) extracted-citation list. -/
theorem final_sources_claim_cex :
    (format_response_with_sources (pyS "hello") [pyS "A", pyS "A"]
        [("is_medical", MVal.b true), ("used_rag", MVal.b false)]).2 = [pyS "A", pyS "A"] ∧
    ¬ ([pyS "A", pyS "A"] : List PyStr).Nodup ∧
    (extract_gpt_sources (pyS "hello")).1 = [] :=
  ⟨by decide, by decide, by decide⟩

theorem orQuery_some_of_ne (s q : PyStr) (h : s.isEmpty = false) : orQuery (some s) q = s := by
  simp [orQuery, h]

/-- C10 (amended): when `originalQuery` is non-null and non-empty, the result
of `answer` does not depend on the `query` argument: classification, retrieval
and generation are all driven by `originalQuery`.  (For the non-null but empty
string, Python truthiness falls back to `query`, so the original claim fails.) -/
theorem answer_ignores_query_when_original_nonempty (svc : Services) (q1 q2 s : PyStr)
    (history : List Msg) (uc : Option PyStr) (h : s.isEmpty = false) :
    answer svc q1 history (some s) uc = answer svc q2 history (some s) uc := by
  simp only [answer, orQuery_some_of_ne s q1 h, orQuery_some_of_ne s q2 h]

/-- C10 witness: two runs differing only in `query`, with a non-empty
`originalQuery`, produce identical results. -/
theorem answer_ignores_query_witness :
    answer svcQDep (pyS "a") [] (some (pyS "x")) none =
      answer svcQDep (pyS "b") [] (some (pyS "x")) none :=
  answer_ignores_query_when_original_nonempty svcQDep (pyS "a") (pyS "b") (pyS "x") [] none
    (by decide)

/-- C10 counterexample: with the non-null but empty `originalQuery` `some ""`,
the pipeline falls back to `query` (Python truthiness), so two runs differing
only in `query` produce different results. -/
theorem answer_query_dependence_cex :
    answer svcQDep (pyS "MED?") [] (some []) none ≠
      answer svcQDep (pyS "other") [] (some []) none ∧
    (some ([] : PyStr) ≠ (none : Option PyStr)) :=
  ⟨by decide, by decide⟩
